import Mathlib

/-!
# Verification of `manim/utils/tex_file_writing.py`

A shallow embedding of the TeX-to-SVG pipeline of manim's
`tex_file_writing` module, together with theorems settling the claims of
the specification against the code.

The module has four pieces: a content hasher (`tex_hash`, a truncated
SHA-256 hex digest), a document generator (`generate_tex_file`), a
compiler invoker (`tex_compilation_command` / `compile_tex`) and a vector
converter (`convert_to_svg`), threaded by `tex_to_svg_file`.  Filesystem
state and external process invocations are made explicit: every stateful
function takes and returns a state record, and the external `os.system`
call is an oracle parameter.
-/

namespace TexWriting

/-! ## SHA-256, as used by `hashlib.sha256` in `tex_hash`

A byte-level embedding of SHA-256 over `List Nat` (each entry one byte),
with 32-bit words represented as `Nat` reduced mod `2^32`.
-/

/-- Reduce to a 32-bit word. -/
def u32 (n : Nat) : Nat := n % 4294967296

/-- Right rotation of a 32-bit word. -/
def rotr (k x : Nat) : Nat := u32 ((x >>> k) ||| (x <<< (32 - k)))

/-- SHA-256 choice function. -/
def ch (x y z : Nat) : Nat := (x &&& y) ^^^ ((4294967295 - u32 x) &&& z)

/-- SHA-256 majority function. -/
def maj (x y z : Nat) : Nat := (x &&& y) ^^^ (x &&& z) ^^^ (y &&& z)

/-- Big sigma-0. -/
def bsig0 (x : Nat) : Nat := rotr 2 x ^^^ rotr 13 x ^^^ rotr 22 x

/-- Big sigma-1. -/
def bsig1 (x : Nat) : Nat := rotr 6 x ^^^ rotr 11 x ^^^ rotr 25 x

/-- Small sigma-0. -/
def ssig0 (x : Nat) : Nat := rotr 7 x ^^^ rotr 18 x ^^^ (x >>> 3)

/-- Small sigma-1. -/
def ssig1 (x : Nat) : Nat := rotr 17 x ^^^ rotr 19 x ^^^ (x >>> 10)

/-- The 64 SHA-256 round constants. -/
def sha256K : List Nat :=
  [1116352408, 1899447441, 3049323471, 3921009573, 961987163,
   1508970993, 2453635748, 2870763221, 3624381080, 310598401,
   607225278, 1426881987, 1925078388, 2162078206, 2614888103,
   3248222580, 3835390401, 4022224774, 264347078, 604807628,
   770255983, 1249150122, 1555081692, 1996064986, 2554220882,
   2821834349, 2952996808, 3210313671, 3336571891, 3584528711,
   113926993, 338241895, 666307205, 773529912, 1294757372,
   1396182291, 1695183700, 1986661051, 2177026350, 2456956037,
   2730485921, 2820302411, 3259730800, 3345764771, 3516065817,
   3600352804, 4094571909, 275423344, 430227734, 506948616,
   659060556, 883997877, 958139571, 1322822218, 1537002063,
   1747873779, 1955562222, 2024104815, 2227730452, 2361852424,
   2428436474, 2756734187, 3204031479, 3329325298]

/-- The eight-word SHA-256 working state. -/
structure Hash8 where
  a : Nat
  b : Nat
  c : Nat
  d : Nat
  e : Nat
  f : Nat
  g : Nat
  h : Nat
deriving DecidableEq, Repr

/-- The SHA-256 initial hash value. -/
def sha256Init : Hash8 :=
  ⟨1779033703, 3144134277, 1013904242, 2773480762,
   1359893119, 2600822924, 528734635, 1541459225⟩

/-- Word `i` of a message schedule, 0 when out of range. -/
def wd (w : List Nat) (i : Nat) : Nat := w.getD i 0

/-- Extend a 16-word block to the 64-word message schedule
(`n` remaining extension steps). -/
def extendW : Nat → List Nat → List Nat
  | 0, w => w
  | n + 1, w =>
    let i := w.length
    extendW n
      (w ++ [u32 (ssig1 (wd w (i - 2)) + wd w (i - 7) +
                  ssig0 (wd w (i - 15)) + wd w (i - 16))])

/-- One SHA-256 compression round. -/
def sha256Round (w : List Nat) (i : Nat) (s : Hash8) : Hash8 :=
  let t1 := u32 (s.h + bsig1 s.e + ch s.e s.f s.g + wd sha256K i + wd w i)
  let t2 := u32 (bsig0 s.a + maj s.a s.b s.c)
  ⟨u32 (t1 + t2), s.a, s.b, s.c, u32 (s.d + t1), s.e, s.f, s.g⟩

/-- Run rounds `i, i+1, …` for `n` steps. -/
def sha256Rounds (w : List Nat) : Nat → Nat → Hash8 → Hash8
  | _, 0, s => s
  | i, n + 1, s => sha256Rounds w (i + 1) n (sha256Round w i s)

/-- Compress one 16-word block into the running hash value. -/
def sha256Compress (s : Hash8) (block : List Nat) : Hash8 :=
  let w := extendW 48 block
  let t := sha256Rounds w 0 64 s
  ⟨u32 (s.a + t.a), u32 (s.b + t.b), u32 (s.c + t.c), u32 (s.d + t.d),
   u32 (s.e + t.e), u32 (s.f + t.f), u32 (s.g + t.g), u32 (s.h + t.h)⟩

/-- Fuel-driven worker for `chunkList`; `fuel ≥ l.length` makes the
fuel bound immaterial because every step consumes at least one byte. -/
def chunkListAux (k : Nat) : Nat → List Nat → List (List Nat)
  | 0, _ => []
  | _ + 1, [] => []
  | fuel + 1, x :: xs =>
    (x :: xs).take k :: chunkListAux k fuel ((x :: xs).drop k)

/-- Split a byte list into chunks of `k` bytes (`k > 0` at every call
site). -/
def chunkList (k : Nat) (l : List Nat) : List (List Nat) :=
  if k = 0 then [] else chunkListAux k l.length l

/-- Big-endian assembly of up to four bytes into one 32-bit word. -/
def wordOfBytes (bs : List Nat) : Nat :=
  bs.foldl (fun acc b => acc * 256 + b % 256) 0

/-- SHA-256 padding: append `0x80`, zero-fill to 56 mod 64, then the
64-bit big-endian bit length. -/
def sha256Pad (msg : List Nat) : List Nat :=
  let bitLen := msg.length * 8
  let padZeros := (55 + 64 - msg.length % 64) % 64
  msg ++ [0x80] ++ List.replicate padZeros 0 ++
    [bitLen >>> 56 % 256, bitLen >>> 48 % 256, bitLen >>> 40 % 256,
     bitLen >>> 32 % 256, bitLen >>> 24 % 256, bitLen >>> 16 % 256,
     bitLen >>> 8 % 256, bitLen % 256]

/-- SHA-256 over a byte list: pad, split into 64-byte blocks, convert
each to 16 big-endian words, and fold the compression function. -/
def sha256 (msg : List Nat) : Hash8 :=
  let blocks := (chunkList 64 (sha256Pad msg)).map
    (fun blk => (chunkList 4 blk).map wordOfBytes)
  blocks.foldl sha256Compress sha256Init

/-- The 32 digest bytes of a final hash value, big-endian per word. -/
def digestBytes (s : Hash8) : List Nat :=
  [s.a >>> 24 % 256, s.a >>> 16 % 256, s.a >>> 8 % 256, s.a % 256,
   s.b >>> 24 % 256, s.b >>> 16 % 256, s.b >>> 8 % 256, s.b % 256,
   s.c >>> 24 % 256, s.c >>> 16 % 256, s.c >>> 8 % 256, s.c % 256,
   s.d >>> 24 % 256, s.d >>> 16 % 256, s.d >>> 8 % 256, s.d % 256,
   s.e >>> 24 % 256, s.e >>> 16 % 256, s.e >>> 8 % 256, s.e % 256,
   s.f >>> 24 % 256, s.f >>> 16 % 256, s.f >>> 8 % 256, s.f % 256,
   s.g >>> 24 % 256, s.g >>> 16 % 256, s.g >>> 8 % 256, s.g % 256,
   s.h >>> 24 % 256, s.h >>> 16 % 256, s.h >>> 8 % 256, s.h % 256]

/-- The sixteen lowercase hexadecimal digit characters. -/
def hexChars : List Char := ("0123456789abcdef" : String).data

/-- One hex digit character for a nibble (default `'0'` out of range,
which cannot occur for nibble inputs). -/
def hexDigit (n : Nat) : Char := hexChars.getD n '0'

/-- Two lowercase hex characters for one byte, high nibble first —
`bytes.hex()` / `hexdigest` formatting. -/
def byteToHex (b : Nat) : List Char := [hexDigit (b >>> 4), hexDigit (b &&& 15)]

/-- UTF-8 encoding of one character, as `str.encode` performs per code
point. -/
def utf8Bytes (c : Char) : List Nat :=
  let n := c.toNat
  if n < 0x80 then [n]
  else if n < 0x800 then
    [0xC0 ||| (n >>> 6), 0x80 ||| (n &&& 0x3F)]
  else if n < 0x10000 then
    [0xE0 ||| (n >>> 12), 0x80 ||| ((n >>> 6) &&& 0x3F), 0x80 ||| (n &&& 0x3F)]
  else
    [0xF0 ||| (n >>> 18), 0x80 ||| ((n >>> 12) &&& 0x3F),
     0x80 ||| ((n >>> 6) &&& 0x3F), 0x80 ||| (n &&& 0x3F)]

/-- UTF-8 encoding of a string (`id_str.encode()`). -/
def strBytes (s : String) : List Nat := s.data.bind utf8Bytes

/-- Python `hashlib.sha256(bytes).hexdigest()`: the 64-character
lowercase hex digest string. -/
def sha256Hexdigest (msg : List Nat) : String :=
  ⟨(digestBytes (sha256 msg)).bind byteToHex⟩

/-- Embedding of `tex_hash` from `tex_file_writing.py`:

    id_str = str(expression)
    hasher = hashlib.sha256()
    hasher.update(id_str.encode())
    return hasher.hexdigest()[:16]
-/
def tex_hash (expression : String) : String :=
  ⟨(sha256Hexdigest (strBytes expression)).data.take 16⟩

/-! ## String and path utilities used by the module

`str.replace`, `os.path.join`, `PurePath.as_posix`, `f.readlines` and
`" ".join`, embedded with Python's semantics.
-/

/-- Fuel-driven worker for Python `str.replace` on char lists with a
nonempty pattern: replace every non-overlapping occurrence, scanning
left to right.  `fuel ≥ l.length` makes the fuel bound immaterial
because every step consumes at least one character. -/
def pyReplaceCore (pat rep : List Char) : Nat → List Char → List Char
  | 0, l => l
  | _ + 1, [] => []
  | fuel + 1, c :: rest =>
    if pat.isPrefixOf (c :: rest) ∧ pat ≠ [] then
      rep ++ pyReplaceCore pat rep fuel ((c :: rest).drop pat.length)
    else
      c :: pyReplaceCore pat rep fuel rest

/-- Python `str.replace(old, new)` (all occurrences; for an empty
pattern Python inserts `new` around every character). -/
def pyReplace (s pat rep : String) : String :=
  if pat = "" then
    ⟨rep.data ++ s.data.bind (fun c => c :: rep.data)⟩
  else
    ⟨pyReplaceCore pat.data rep.data s.data.length s.data⟩

/-- POSIX `os.path.join(a, b)`: `b` if absolute, else `a` and `b`
separated by exactly one slash. -/
def osPathJoin (a b : String) : String :=
  if b.data.head? = some '/' then b
  else if a = "" then b
  else if a.data.getLast? = some '/' then a ++ b
  else a ++ "/" ++ b

/-- Split a char list at every slash, keeping empty segments. -/
def splitSlash : List Char → List Char → List (List Char)
  | [], acc => [acc.reverse]
  | '/' :: rest, acc => acc.reverse :: splitSlash rest []
  | c :: rest, acc => splitSlash rest (c :: acc)

/-- Python `PurePosixPath(s).as_posix()`: drop empty and `.` components,
keep the root (`//` is preserved when exactly two leading slashes). -/
def asPosix (s : String) : String :=
  let parts := ((splitSlash s.data []).map List.asString).filter
    (fun p => ¬(p = "" ∨ p = "."))
  let root :=
    if s.data.take 3 = ['/', '/', '/'] then "/"
    else if s.data.take 2 = ['/', '/'] then "//"
    else if s.data.take 1 = ['/'] then "/"
    else ""
  if parts = [] then (if root = "" then "." else root)
  else root ++ String.intercalate "/" parts

/-- Python `str.startswith(pre)`. -/
def pyStartsWith (s pre : String) : Bool := pre.data.isPrefixOf s.data

/-- Python `f.readlines()`: split after every newline, keeping the
newline characters; `acc` is the current line, reversed. -/
def readlinesCore : List Char → List Char → List String
  | acc, [] => if acc = [] then [] else [⟨acc.reverse⟩]
  | acc, '\n' :: rest => ⟨('\n' :: acc).reverse⟩ :: readlinesCore [] rest
  | acc, c :: rest => readlinesCore (c :: acc) rest

/-- Python `f.readlines()` over file contents. -/
def pyReadlines (s : String) : List String := readlinesCore [] s.data

/-- Python `" ".join(l)`. -/
def joinSpace : List String → String
  | [] => ""
  | [c] => c
  | c :: rest => c ++ " " ++ joinSpace rest

/-- The value of `os.devnull` on POSIX. -/
def os_devnull : String := "/dev/null"

/-- Containment of `sub` in `big` as a contiguous substring. -/
def strContains (big sub : String) : Prop :=
  ∃ s t : List Char, big.data = s ++ sub.data ++ t

/-! ## Data model: template, configuration, filesystem, effect state

`TexTemplate` and `config` live outside the excerpted source
(`manim/utils/tex_templates` and `manim/_config`); only the four members
this module consumes are modelled, from the spec.
-/

/-- Modelled from the spec: the `TexTemplate` object consumed by this
module (its class is outside the excerpt).  Per spec §3 a template
exposes a function mapping an expression to full document text, a
function mapping an expression and environment to full document text,
the external compiler name, and the intermediate output format
extension. -/
structure TexTemplate where
  texcodeForExpression : String → String
  texcodeForExpressionInEnv : String → String → String
  tex_compiler : String
  output_format : String

/-- Modelled from the spec: the two process-wide configuration inputs
this module reads (`config["tex_template"]` and
`config.get_dir("tex_dir")`); the config system itself is outside the
excerpt.  Per spec §6 the configuration supplies a working-directory
path and a default template. -/
structure ManimConfig where
  tex_template : TexTemplate
  tex_dir : String

/-- Filesystem model: an association list of file contents plus a list
of existing directories. -/
structure FS where
  files : List (String × String)
  dirs : List String
deriving DecidableEq

/-- Python `os.path.exists` / `Path.exists`: true for files and
directories. -/
def FS.pathExists (fs : FS) (p : String) : Bool :=
  (fs.files.lookup p).isSome || fs.dirs.contains p

/-- Write (create or overwrite) a file. -/
def FS.writeFile (fs : FS) (p c : String) : FS :=
  { fs with files := (p, c) :: fs.files }

/-- Read a file's contents, if `p` names a file. -/
def FS.readFile (fs : FS) (p : String) : Option String := fs.files.lookup p

/-- Python `os.makedirs`: create a directory. -/
def FS.mkdir (fs : FS) (p : String) : FS := { fs with dirs := p :: fs.dirs }

/-- Effect state threaded through the pipeline: the filesystem plus
observation logs — commands passed to `os.system`, paths written
(files and created directories), log files read, and the messages
emitted through `logger.info` / `logger.error`. -/
structure St where
  fs : FS
  invocations : List String
  writes : List String
  reads : List String
  infos : List String
  errors : List String
deriving DecidableEq

/-- The external world behind `os.system`: a command produces an exit
status and a new filesystem. -/
def ExecOracle : Type := String → FS → Int × FS

/-- The distinct failure sites of the module, one constructor per
`raise` statement (plus `ioError`/`indexError` for the Python runtime
errors reachable in `compile_tex`). -/
inductive TexError where
  /-- Python `ValueError("xelatex output is either pdf or xdv")`. -/
  | xelatexBadFormat
  /-- Python `ValueError(f"Tex compiler {tex_compiler} unknown.")`. -/
  | unknownCompiler (compiler : String)
  /-- Python `RuntimeError(f"{tex_compiler} failed but did not produce a log file. ...")`. -/
  | missingLogFile (compiler : String)
  /-- Python `ValueError(f"{tex_compiler} error converting to {output_format[1:]}. ...")`. -/
  | latexCompileError (fmt log_file : String)
  /-- Python `IndexError` from `log[lineno + printed_lines]` past the end. -/
  | indexError
  /-- Python I/O error from `open` on a non-file path. -/
  | ioError
  /-- Python `ValueError(f"Your installation does not support converting {extension} files to SVG. ...")`. -/
  | svgConversionFailed (extension : String)
deriving DecidableEq

deriving instance DecidableEq for Except

/-! ## The four pipeline functions -/

/-- The document text rendered by `generate_tex_file`: the template's
expression-plus-environment function when an environment is given, its
expression-only function otherwise (template defaulted from
configuration when absent). -/
def renderedDoc (cfg : ManimConfig) (expression : String)
    (environment : Option String) (tex_template : Option TexTemplate) :
    String :=
  let tt := tex_template.getD cfg.tex_template
  match environment with
  | some env => tt.texcodeForExpressionInEnv expression env
  | none => tt.texcodeForExpression expression

/-- The fingerprint-derived document path of `generate_tex_file`:
`os.path.join(tex_dir, tex_hash(output)) + ".tex"`. -/
def genTexPath (cfg : ManimConfig) (expression : String)
    (environment : Option String) (tex_template : Option TexTemplate) :
    String :=
  osPathJoin cfg.tex_dir
    (tex_hash (renderedDoc cfg expression environment tex_template)) ++ ".tex"

/-- Embedding of `generate_tex_file(expression, environment=None,
tex_template=None)`:
render the document text (environment variant iff an environment is
given), ensure the working directory, and write the rendered text to
`os.path.join(tex_dir, tex_hash(output)) + ".tex"` unless that file
already exists; the path is returned either way. -/
def generate_tex_file (cfg : ManimConfig) (expression : String)
    (environment : Option String) (tex_template : Option TexTemplate)
    (st : St) : String × St :=
  let output := renderedDoc cfg expression environment tex_template
  let tex_dir := cfg.tex_dir
  let st1 := if st.fs.pathExists tex_dir then st
    else { st with fs := st.fs.mkdir tex_dir, writes := st.writes ++ [tex_dir] }
  let result := genTexPath cfg expression environment tex_template
  let st2 := if st1.fs.pathExists result then st1
    else { st1 with
            fs := st1.fs.writeFile result output,
            writes := st1.writes ++ [result],
            infos := st1.infos ++
              ["Writing \"" ++ expression ++ "\" to " ++ result] }
  (result, st2)

/-- The command token list built by `tex_compilation_command` before
`" ".join`, or the error raised while building it. -/
def texCommandTokens (tex_compiler output_format tex_file tex_dir : String) :
    Except TexError (List String) :=
  if tex_compiler = "latex" ∨ tex_compiler = "pdflatex" ∨
     tex_compiler = "luatex" ∨ tex_compiler = "lualatex" then
    Except.ok
      [tex_compiler,
       "-interaction=batchmode",
       "-output-format=\"" ++ output_format.drop 1 ++ "\"",
       "-halt-on-error",
       "-output-directory=\"" ++ tex_dir ++ "\"",
       "\"" ++ tex_file ++ "\"",
       ">",
       os_devnull]
  else if tex_compiler = "xelatex" then
    match (if output_format = ".xdv" then Except.ok "-no-pdf"
           else if output_format = ".pdf" then Except.ok ""
           else Except.error TexError.xelatexBadFormat : Except TexError String) with
    | Except.error e => Except.error e
    | Except.ok outflag =>
      Except.ok
        ["xelatex",
         outflag,
         "-interaction=batchmode",
         "-halt-on-error",
         "-output-directory=\"" ++ tex_dir ++ "\"",
         "\"" ++ tex_file ++ "\"",
         ">",
         os_devnull]
  else Except.error (TexError.unknownCompiler tex_compiler)

/-- Embedding of `tex_compilation_command(tex_compiler, output_format,
tex_file, tex_dir)`: the token list joined by single spaces. -/
def tex_compilation_command (tex_compiler output_format tex_file tex_dir :
    String) : Except TexError String :=
  (texCommandTokens tex_compiler output_format tex_file tex_dir).map joinSpace

/-- The search loop of the log scraper: starting from offset `pl`, look
at up to `fuel` lines `log[lineno + pl]`, stopping at the first one that
begins with `"l."`; `none` models the `IndexError` Python raises when
the indexed line does not exist. -/
def excerptSearch (log : List String) (lineno : Nat) :
    Nat → Nat → Option Nat
  | 0, pl => some pl
  | fuel + 1, pl =>
    match log.get? (lineno + pl) with
    | none => none
    | some line =>
      if pyStartsWith line "l." then some pl
      else excerptSearch log lineno fuel (pl + 1)

/-- The diagnostic excerpt surfaced for the error line at index `lineno`:
`log[lineno : lineno + printed_lines + 1]` where `printed_lines` comes
from a 10-iteration search for a line starting with `"l."`; `none`
models the `IndexError` path. -/
def texLogExcerpt (log : List String) (lineno : Nat) :
    Option (List String) :=
  (excerptSearch log lineno 10 1).map
    (fun pl => (log.drop lineno).take (pl + 1))

/-- Indices of lines beginning with `"!"` —
`[ind for (ind, line) in enumerate(log) if line.startswith("!")]`. -/
def errorPositions (log : List String) : List Nat :=
  (log.enum.filter (fun p => pyStartsWith p.2 "!")).map (fun p => p.1)

/-- Surface the excerpts of every error position in order; the flag is
true when an `IndexError` interrupts the loop, and the line list holds
what was surfaced before the interruption. -/
def scrapeLog (log : List String) : List Nat → List String × Bool
  | [] => ([], false)
  | p :: ps =>
    match texLogExcerpt log p with
    | none => ([], true)
    | some ex =>
      let rest := scrapeLog log ps
      (ex ++ rest.1, rest.2)

/-- The expected compiler output path:
`Path(tex_file.replace(".tex", output_format)).as_posix()`. -/
def compileOutputPath (tex_file output_format : String) : String :=
  asPosix (pyReplace tex_file ".tex" output_format)

/-- Embedding of `compile_tex(tex_file, tex_compiler, output_format)`:
return the
expected output path, invoking the compiler only when that path does not
already exist; on a non-zero exit status, fail with the missing-log
`RuntimeError` when no log file exists, otherwise surface the scraped
log excerpts through `logger.error` and fail with the compilation
`ValueError`. -/
def compile_tex (exec : ExecOracle) (cfg : ManimConfig)
    (tex_file tex_compiler output_format : String) (st : St) :
    Except TexError String × St :=
  let result := compileOutputPath tex_file output_format
  let tex_file1 := asPosix tex_file
  let tex_dir := asPosix cfg.tex_dir
  if st.fs.pathExists result then (Except.ok result, st)
  else
    match tex_compilation_command tex_compiler output_format tex_file1 tex_dir with
    | Except.error e => (Except.error e, st)
    | Except.ok command =>
      let ecfs := exec command st.fs
      let st1 := { st with fs := ecfs.2,
                           invocations := st.invocations ++ [command] }
      if ecfs.1 ≠ 0 then
        let log_file := pyReplace tex_file1 ".tex" ".log"
        if st1.fs.pathExists log_file then
          match st1.fs.readFile log_file with
          | none => (Except.error TexError.ioError, st1)
          | some contents =>
            let st2 := { st1 with reads := st1.reads ++ [log_file] }
            let log := pyReadlines contents
            let pos := errorPositions log
            let header := if pos = [] then []
              else ["LaTeX compilation error! " ++ tex_compiler ++ " reports:"]
            let scraped := scrapeLog log pos
            let st3 := { st2 with errors := st2.errors ++ header ++ scraped.1 }
            if scraped.2 then (Except.error TexError.indexError, st3)
            else
              (Except.error
                (TexError.latexCompileError output_format log_file), st3)
        else (Except.error (TexError.missingLogFile tex_compiler), st1)
      else (Except.ok result, st1)

/-- The expected SVG path:
`Path(dvi_file.replace(extension, ".svg")).as_posix()`. -/
def svgOutputPath (dvi_file extension : String) : String :=
  asPosix (pyReplace dvi_file extension ".svg")

/-- The state after the run-or-skip phase of `convert_to_svg`: the
`dvisvgm` command is executed only when the expected SVG path does not
yet exist, and its exit status is discarded. -/
def convertRunState (exec : ExecOracle) (dvi_file extension : String)
    (page : Nat) (st : St) : St :=
  let result := svgOutputPath dvi_file extension
  let dvi_file1 := asPosix dvi_file
  if st.fs.pathExists result then st
  else
    let command := joinSpace
      ["dvisvgm",
       if extension = ".pdf" then "--pdf" else "",
       "-p " ++ toString page,
       "\"" ++ dvi_file1 ++ "\"",
       "-n",
       "-v 0",
       "-o " ++ ("\"" ++ result ++ "\""),
       ">",
       os_devnull]
    let ecfs := exec command st.fs
    { st with fs := ecfs.2, invocations := st.invocations ++ [command] }

/-- Embedding of `convert_to_svg(dvi_file, extension, page=1)`: run
`dvisvgm` unless
the expected SVG already exists, ignore its exit status, and fail with
the conversion `ValueError` exactly when the SVG still does not exist. -/
def convert_to_svg (exec : ExecOracle) (dvi_file extension : String)
    (page : Nat) (st : St) : Except TexError String × St :=
  let result := svgOutputPath dvi_file extension
  let st1 := convertRunState exec dvi_file extension page st
  if ¬ st1.fs.pathExists result then
    (Except.error (TexError.svgConversionFailed extension), st1)
  else (Except.ok result, st1)

/-- Embedding of `tex_to_svg_file(expression, environment=None,
tex_template=None)`:
resolve the default template from configuration, then thread
`generate_tex_file → compile_tex → convert_to_svg`, propagating stage
failures unchanged. -/
def tex_to_svg_file (exec : ExecOracle) (cfg : ManimConfig)
    (expression : String) (environment : Option String)
    (tex_template : Option TexTemplate) (st : St) :
    Except TexError String × St :=
  let tt := tex_template.getD cfg.tex_template
  let gen := generate_tex_file cfg expression environment (some tt) st
  let comp := compile_tex exec cfg gen.1 tt.tex_compiler tt.output_format gen.2
  match comp.1 with
  | Except.error e => (Except.error e, comp.2)
  | Except.ok dvi_file =>
    convert_to_svg exec dvi_file tt.output_format 1 comp.2

/-! ## Concrete sample data used by witnesses -/

/-- A concrete template for witnesses. -/
def wTemplate : TexTemplate :=
  ⟨fun e => "doc:" ++ e, fun e env => "doc[" ++ env ++ "]:" ++ e,
   "latex", ".dvi"⟩

/-- A concrete configuration for witnesses. -/
def wConfig : ManimConfig := ⟨wTemplate, "media/Tex"⟩

/-- An oracle that ignores the command, reports success, and leaves the
filesystem unchanged. -/
def noopExec : ExecOracle := fun _ fs => (0, fs)

/-- An oracle that ignores the command, reports failure, and leaves the
filesystem unchanged. -/
def failExec : ExecOracle := fun _ fs => (1, fs)

/-- An oracle that deposits the compiled and converted artifacts of the
witness pipeline run on any invocation. -/
def wExec : ExecOracle := fun _ fs =>
  (0, { fs with files :=
    (compileOutputPath (genTexPath wConfig "x^2" none (some wTemplate))
       ".dvi", "") ::
    (svgOutputPath
       (compileOutputPath (genTexPath wConfig "x^2" none (some wTemplate))
         ".dvi") ".dvi", "") :: fs.files })

/-- The empty starting state. -/
def wSt0 : St := ⟨⟨[], []⟩, [], [], [], [], []⟩

/-! ## Helper lemmas on the hasher -/

/-- Every `hexDigit` output is a lowercase hexadecimal character. -/
theorem hexDigit_mem_hexChars (n : Nat) : hexDigit n ∈ hexChars := by
  unfold hexDigit
  rw [List.getD_eq_getElem?_getD]
  rcases h : hexChars[n]? with _ | c
  · decide
  · show c ∈ hexChars
    exact List.get?_mem ((List.get?_eq_getElem? hexChars n).trans h)

/-- Binding `byteToHex` over a byte list doubles the length. -/
theorem length_bind_byteToHex (l : List Nat) :
    (l.bind byteToHex).length = 2 * l.length := by
  induction l with
  | nil => rfl
  | cons x xs ih =>
    simp only [List.cons_bind, List.length_append, List.length_cons, ih,
      byteToHex, List.length_cons, List.length_nil]
    omega

/-- The hex digest of any message has exactly 64 characters. -/
theorem sha256Hexdigest_length (msg : List Nat) :
    (sha256Hexdigest msg).data.length = 64 := by
  show ((digestBytes (sha256 msg)).bind byteToHex).length = 64
  rw [length_bind_byteToHex]
  rfl

/-- Every character of a hex digest is a lowercase hexadecimal
character. -/
theorem sha256Hexdigest_mem_hexChars (msg : List Nat) {c : Char}
    (hc : c ∈ (sha256Hexdigest msg).data) : c ∈ hexChars := by
  have hc' : c ∈ (digestBytes (sha256 msg)).bind byteToHex := hc
  rw [List.mem_bind] at hc'
  obtain ⟨b, _, hb⟩ := hc'
  simp only [byteToHex, List.mem_cons, List.not_mem_nil, or_false] at hb
  rcases hb with rfl | rfl
  · exact hexDigit_mem_hexChars _
  · exact hexDigit_mem_hexChars _

/-- Every `tex_hash` value is a 16-character string. -/
theorem tex_hash_length (s : String) : (tex_hash s).length = 16 := by
  show ((sha256Hexdigest (strBytes s)).data.take 16).length = 16
  rw [List.length_take, sha256Hexdigest_length]
  decide

/-- Every character of a `tex_hash` value is a lowercase hexadecimal
character. -/
theorem tex_hash_mem_hexChars (s : String) {c : Char}
    (hc : c ∈ (tex_hash s).data) : c ∈ hexChars :=
  sha256Hexdigest_mem_hexChars (strBytes s) (List.take_subset 16 _ hc)

/-! ## Helper lemmas on command construction -/

/-- Every token of a space-joined command list occurs as a substring of
the joined command string. -/
theorem joinSpace_substring :
    ∀ {l : List String} {x : String}, x ∈ l → strContains (joinSpace l) x := by
  intro l
  induction l with
  | nil => intro x hx; cases hx
  | cons y rest ih =>
    intro x hx
    rcases List.mem_cons.mp hx with rfl | hx'
    · cases rest with
      | nil => exact ⟨[], [], by simp [joinSpace]⟩
      | cons r rs =>
        refine ⟨[], (" " ++ joinSpace (r :: rs)).data, ?_⟩
        show (x ++ " " ++ joinSpace (r :: rs)).data = [] ++ x.data ++ _
        simp [String.data_append, List.append_assoc]
    · cases rest with
      | nil => cases hx'
      | cons r rs =>
        obtain ⟨s, t, h⟩ := ih hx'
        refine ⟨(y ++ " ").data ++ s, t, ?_⟩
        show (y ++ " " ++ joinSpace (r :: rs)).data = _
        rw [String.data_append, h]
        simp [List.append_assoc]

/-- The no-PDF flag is never the quoted output-directory token. -/
theorem noPdf_ne_outputDirectory (d : String) :
    ("-output-directory=\"" ++ d ++ "\"" : String) ≠ "-no-pdf" := by
  intro h
  have hl := congrArg String.length h
  rw [String.length_append, String.length_append] at hl
  have h1 : ("-no-pdf" : String).length = 7 := rfl
  have h2 : ("-output-directory=\"" : String).length = 19 := rfl
  have h3 : ("\"" : String).length = 1 := rfl
  omega

/-- The no-PDF flag is never the quoted input-file token. -/
theorem noPdf_ne_quotedFile (f : String) :
    ("\"" ++ f ++ "\"" : String) ≠ "-no-pdf" := by
  intro h
  have hd := congrArg String.data h
  rw [String.data_append, String.data_append] at hd
  have h1 : ("\"" : String).data = ['"'] := rfl
  have h2 : ("-no-pdf" : String).data = ['-', 'n', 'o', '-', 'p', 'd', 'f'] :=
    rfl
  rw [h1, h2, List.cons_append, List.nil_append] at hd
  injection hd with h3 _
  exact absurd h3 (by decide)

/-! ## Claim theorems -/

/-- C2: content hashing is a deterministic pure function — `tex_hash` is
a pure Lean function of the input text, so identical inputs yield
identical outputs and there is no failure mode — and for every text the
result is exactly 16 lowercase hexadecimal characters (the truncated
SHA-256 hex digest). -/
theorem tex_hash_sixteen_lowercase_hex (t : String) :
    (tex_hash t).length = 16 ∧ ∀ c ∈ (tex_hash t).data, c ∈ hexChars :=
  ⟨tex_hash_length t, fun _ hc => tex_hash_mem_hexChars t hc⟩

/-- Witness for C2 at the spec's example expression `"x^2"`: the hash
has length 16 and its first character is a concrete member of
`hexChars`. -/
theorem tex_hash_sixteen_lowercase_hex_witness :
    (tex_hash "x^2").length = 16 ∧
      (tex_hash "x^2").data.getD 0 'z' ∈ hexChars := by
  refine ⟨(tex_hash_sixteen_lowercase_hex "x^2").1, ?_⟩
  refine (tex_hash_sixteen_lowercase_hex "x^2").2 _ ?_
  set_option maxRecDepth 100000 in decide

/-- C3: compiler command construction for xelatex and unknown compilers.
With `.xdv` the built command carries the `-no-pdf` flag (as a token of
the command list and as a substring of the joined command string); with
`.pdf` no `-no-pdf` token occurs; with any other output format
construction fails with the xelatex-format `ValueError` (the spec's
`UnsupportedFormat`); and for any compiler name outside the recognized
set it fails with the unknown-compiler `ValueError` (the spec's
`UnknownCompiler`). -/
theorem xelatex_and_unknown_compiler_command_construction :
    (∀ f d, ∃ L, texCommandTokens "xelatex" ".xdv" f d = Except.ok L ∧
      "-no-pdf" ∈ L ∧ strContains (joinSpace L) "-no-pdf") ∧
    (∀ f d, ∃ L, texCommandTokens "xelatex" ".pdf" f d = Except.ok L ∧
      "-no-pdf" ∉ L) ∧
    (∀ fmt f d, fmt ≠ ".xdv" → fmt ≠ ".pdf" →
      tex_compilation_command "xelatex" fmt f d =
        Except.error TexError.xelatexBadFormat) ∧
    (∀ c fmt f d,
      c ∉ (["latex", "pdflatex", "luatex", "lualatex", "xelatex"] :
        List String) →
      tex_compilation_command c fmt f d =
        Except.error (TexError.unknownCompiler c)) := by
  refine ⟨?_, ?_, ?_, ?_⟩
  · intro f d
    refine ⟨_, rfl, ?_, ?_⟩
    · simp
    · exact joinSpace_substring (by simp)
  · intro f d
    refine ⟨_, rfl, ?_⟩
    intro hmem
    simp only [List.mem_cons, List.not_mem_nil, or_false] at hmem
    rcases hmem with h | h | h | h | h | h | h | h
    all_goals first
      | exact absurd h (by decide)
      | exact noPdf_ne_outputDirectory d h.symm
      | exact noPdf_ne_quotedFile f h.symm
  · intro fmt f d hx hp
    unfold tex_compilation_command texCommandTokens
    rw [if_neg (by decide), if_pos rfl, if_neg hx, if_neg hp]
    rfl
  · intro c fmt f d hc
    simp only [List.mem_cons, List.not_mem_nil, or_false, not_or] at hc
    obtain ⟨h1, h2, h3, h4, h5⟩ := hc
    unfold tex_compilation_command texCommandTokens
    rw [if_neg (by simp [h1, h2, h3, h4]), if_neg h5]
    rfl

/-- Witness for C3 at concrete file `"f.tex"`, directory `"dir"`,
unsupported format `".svg"` and the spec's unknown compiler name
`"not-a-compiler"`. -/
theorem xelatex_and_unknown_compiler_command_construction_witness :
    (∃ L, texCommandTokens "xelatex" ".xdv" "f.tex" "dir" = Except.ok L ∧
      "-no-pdf" ∈ L ∧ strContains (joinSpace L) "-no-pdf") ∧
    (∃ L, texCommandTokens "xelatex" ".pdf" "f.tex" "dir" = Except.ok L ∧
      "-no-pdf" ∉ L) ∧
    tex_compilation_command "xelatex" ".svg" "f.tex" "dir" =
      Except.error TexError.xelatexBadFormat ∧
    tex_compilation_command "not-a-compiler" ".dvi" "f.tex" "dir" =
      Except.error (TexError.unknownCompiler "not-a-compiler") :=
  ⟨xelatex_and_unknown_compiler_command_construction.1 "f.tex" "dir",
   xelatex_and_unknown_compiler_command_construction.2.1 "f.tex" "dir",
   xelatex_and_unknown_compiler_command_construction.2.2.1 ".svg" "f.tex"
     "dir" (by decide) (by decide),
   xelatex_and_unknown_compiler_command_construction.2.2.2 "not-a-compiler"
     ".dvi" "f.tex" "dir" (by decide)⟩

/-- C9: for every compiler in the latex family the built command token
list carries batch mode, halt-on-error, the output format without its
leading dot, the output directory, and ends by redirecting standard
output to the null device; batch mode and halt-on-error are also
substrings of the joined command string. -/
theorem latex_family_command_flags :
    ∀ c ∈ (["latex", "pdflatex", "luatex", "lualatex"] : List String),
    ∀ fmt f d, ∃ L, texCommandTokens c fmt f d = Except.ok L ∧
      "-interaction=batchmode" ∈ L ∧
      "-halt-on-error" ∈ L ∧
      ("-output-format=\"" ++ fmt.drop 1 ++ "\"") ∈ L ∧
      ("-output-directory=\"" ++ d ++ "\"") ∈ L ∧
      (∃ rest, L = rest ++ [">", os_devnull]) ∧
      strContains (joinSpace L) "-interaction=batchmode" ∧
      strContains (joinSpace L) "-halt-on-error" := by
  intro c hc fmt f d
  have hL : texCommandTokens c fmt f d = Except.ok
      [c, "-interaction=batchmode",
       "-output-format=\"" ++ fmt.drop 1 ++ "\"", "-halt-on-error",
       "-output-directory=\"" ++ d ++ "\"", "\"" ++ f ++ "\"", ">",
       os_devnull] := by
    simp only [List.mem_cons, List.not_mem_nil, or_false] at hc
    rcases hc with rfl | rfl | rfl | rfl <;> rfl
  refine ⟨_, hL, by simp, by simp, by simp, by simp, ?_, ?_, ?_⟩
  · exact ⟨[c, "-interaction=batchmode",
      "-output-format=\"" ++ fmt.drop 1 ++ "\"", "-halt-on-error",
      "-output-directory=\"" ++ d ++ "\"", "\"" ++ f ++ "\""], rfl⟩
  · exact joinSpace_substring (by simp)
  · exact joinSpace_substring (by simp)

/-- Helper for C4: the scan loop finds the first `"l."` line when it
lies within its remaining fuel. -/
theorem excerptSearch_finds (log : List String) (i : Nat) (lk : String)
    (hstart : pyStartsWith lk "l." = true) :
    ∀ fuel pl k, pl ≤ k → k - pl < fuel →
      log.get? (i + k) = some lk →
      (∀ j lj, pl ≤ j → j < k → log.get? (i + j) = some lj →
        pyStartsWith lj "l." = false) →
      excerptSearch log i fuel pl = some k := by
  intro fuel
  induction fuel with
  | zero => omega
  | succ fuel ih =>
    intro pl k hple hlt hk hbefore
    rcases eq_or_lt_of_le hple with rfl | hlt'
    · show excerptSearch log i (fuel + 1) pl = some pl
      unfold excerptSearch
      rw [hk]
      simp [hstart]
    · have hkl : i + k < log.length := (List.get?_eq_some.mp hk).1
      have hpl : i + pl < log.length := by omega
      rcases h : log.get? (i + pl) with _ | lp
      · rw [List.get?_eq_none] at h; omega
      · have hnp : pyStartsWith lp "l." = false := hbefore pl lp le_rfl hlt' h
        show excerptSearch log i (fuel + 1) pl = some k
        unfold excerptSearch
        rw [h]
        simp only [hnp, Bool.false_eq_true, if_false]
        show excerptSearch log i fuel (pl + 1) = some k
        exact ih (pl + 1) k (by omega) (by omega) hk
          (fun j lj hj hjk hgj => hbefore j lj (by omega) hjk hgj)

/-- Helper for C4: when no `"l."` line lies in the scanned window and
the window fits inside the log, the scan exhausts its fuel. -/
theorem excerptSearch_exhausts (log : List String) (i : Nat) :
    ∀ fuel pl, i + pl + fuel ≤ log.length →
      (∀ j lj, pl ≤ j → j < pl + fuel → log.get? (i + j) = some lj →
        pyStartsWith lj "l." = false) →
      excerptSearch log i fuel pl = some (pl + fuel) := by
  intro fuel
  induction fuel with
  | zero => intro pl _ _; rfl
  | succ fuel ih =>
    intro pl hlen hnone
    rcases h : log.get? (i + pl) with _ | lp
    · rw [List.get?_eq_none] at h; omega
    · have hnp : pyStartsWith lp "l." = false :=
        hnone pl lp le_rfl (by omega) h
      show excerptSearch log i (fuel + 1) pl = some (pl + (fuel + 1))
      unfold excerptSearch
      rw [h]
      simp only [hnp, Bool.false_eq_true, if_false]
      show excerptSearch log i fuel (pl + 1) = some (pl + (fuel + 1))
      rw [ih (pl + 1) (by omega)
        (fun j lj hj hjk hgj => hnone j lj (by omega) (by omega) hgj)]
      congr 1
      omega

/-- Helper for C4: when the log ends inside the scanned window before
any `"l."` line is found, the scan runs off the end of the list — the
Python `IndexError`. -/
theorem excerptSearch_offEnd (log : List String) (i : Nat) :
    ∀ fuel pl, 1 ≤ fuel → log.length ≤ i + pl + fuel - 1 →
      (∀ j lj, pl ≤ j → log.get? (i + j) = some lj →
        pyStartsWith lj "l." = false) →
      excerptSearch log i fuel pl = none := by
  intro fuel
  induction fuel with
  | zero => omega
  | succ fuel ih =>
    intro pl _ hlen hnone
    rcases h : log.get? (i + pl) with _ | lp
    · show excerptSearch log i (fuel + 1) pl = none
      unfold excerptSearch
      rw [h]
    · have hpl : i + pl < log.length := (List.get?_eq_some.mp h).1
      have hf : 1 ≤ fuel := by omega
      have hnp : pyStartsWith lp "l." = false := hnone pl lp le_rfl h
      show excerptSearch log i (fuel + 1) pl = none
      unfold excerptSearch
      rw [h]
      simp only [hnp, Bool.false_eq_true, if_false]
      exact ih (pl + 1) hf (by omega)
        (fun j lj hj hgj => hnone j lj (by omega) hgj)

/-- Witness for C9 at compiler `"latex"`, format `".dvi"`, file
`"f.tex"` and directory `"dir"`. -/
theorem latex_family_command_flags_witness :
    ∃ L, texCommandTokens "latex" ".dvi" "f.tex" "dir" = Except.ok L ∧
      "-interaction=batchmode" ∈ L ∧
      "-halt-on-error" ∈ L ∧
      ("-output-format=\"" ++ (".dvi" : String).drop 1 ++ "\"") ∈ L ∧
      ("-output-directory=\"" ++ "dir" ++ "\"") ∈ L ∧
      (∃ rest, L = rest ++ [">", os_devnull]) ∧
      strContains (joinSpace L) "-interaction=batchmode" ∧
      strContains (joinSpace L) "-halt-on-error" :=
  latex_family_command_flags "latex" (by decide) ".dvi" "f.tex" "dir"

/-- C4 (amended): the failure-log scraping window.  When a line
beginning with `"l."` occurs within the 10 lines after the error line,
the excerpt spans exactly from the error line through the first such
line inclusive.  When none of those 10 lines begins with `"l."` and the
log extends at least 11 lines past the error line, the excerpt is the
error line plus the following 11 lines.  When the log ends inside the
scan without an `"l."` line, no excerpt is produced — the scan raises
`IndexError`.  (The claim's unqualified first-marker clause and its
10-line cap both fail; see the counterexample.) -/
theorem texLogExcerpt_window :
    (∀ (log : List String) (i k : Nat) (lk : String), 1 ≤ k → k ≤ 10 →
      log.get? (i + k) = some lk → pyStartsWith lk "l." = true →
      (∀ j, j < k → 1 ≤ j →
        pyStartsWith ((log.get? (i + j)).getD "") "l." = false) →
      texLogExcerpt log i = some ((log.drop i).take (k + 1))) ∧
    (∀ (log : List String) (i : Nat), i + 11 ≤ log.length →
      (∀ j, j ≤ 10 → 1 ≤ j →
        pyStartsWith ((log.get? (i + j)).getD "") "l." = false) →
      texLogExcerpt log i = some ((log.drop i).take 12)) ∧
    (∀ (log : List String) (i : Nat), log.length ≤ i + 10 →
      (∀ j, j ≤ 10 → 1 ≤ j →
        pyStartsWith ((log.get? (i + j)).getD "") "l." = false) →
      texLogExcerpt log i = none) := by
  refine ⟨?_, ?_, ?_⟩
  · intro log i k lk h1 h10 hk hs hb
    unfold texLogExcerpt
    rw [excerptSearch_finds log i lk hs 10 1 k h1 (by omega) hk
      (fun j lj hj hjk hg => by
        have := hb j hjk hj
        rwa [hg] at this)]
    rfl
  · intro log i hlen hnone
    unfold texLogExcerpt
    rw [excerptSearch_exhausts log i 10 1 (by omega)
      (fun j lj hj hjk hg => by
        have := hnone j (by omega) hj
        rwa [hg] at this)]
    rfl
  · intro log i hlen hnone
    unfold texLogExcerpt
    rw [excerptSearch_offEnd log i 10 1 (by omega) (by omega)
      (fun j lj hj hg => by
        have hjlt : i + j < log.length := (List.get?_eq_some.mp hg).1
        have := hnone j (by omega) hj
        rwa [hg] at this)]
    rfl

/-- Counterexample for C4 as stated.  In a log whose first `"l."` line
sits 12 lines after the `"!"` line, the excerpt stops after 11 following
lines and never reaches the `"l."` line, refuting the unqualified
"through the first subsequent `l.` line" clause; and in a log with no
`"l."` line at all, the excerpt carries 11 lines after the `"!"` line,
refuting the "at most 10 lines" cap. -/
theorem texLogExcerpt_window_counterexample :
    (texLogExcerpt
        ["!x", "1", "2", "3", "4", "5", "6", "7", "8", "9", "10", "11",
         "l.5"] 0 =
      some ["!x", "1", "2", "3", "4", "5", "6", "7", "8", "9", "10",
            "11"]) ∧
    ("l.5" ∉ ["!x", "1", "2", "3", "4", "5", "6", "7", "8", "9", "10",
              "11"]) ∧
    (texLogExcerpt
        ["!x", "1", "2", "3", "4", "5", "6", "7", "8", "9", "10", "11"]
        0 =
      some ["!x", "1", "2", "3", "4", "5", "6", "7", "8", "9", "10",
            "11"]) ∧
    (["!x", "1", "2", "3", "4", "5", "6", "7", "8", "9", "10", "11"] :
      List String).length = 12 := by
  refine ⟨by decide, by decide, by decide, by decide⟩

/-- Witness for C4 (amended) at concrete logs: an `"l."` line right
after the error line, a 12-line log with no `"l."` line, and a
single-line log that ends inside the scan. -/
theorem texLogExcerpt_window_witness :
    texLogExcerpt ["!x", "l.1"] 0 = some ["!x", "l.1"] ∧
    texLogExcerpt
        ["!x", "1", "2", "3", "4", "5", "6", "7", "8", "9", "10", "11"]
        0 =
      some ["!x", "1", "2", "3", "4", "5", "6", "7", "8", "9", "10",
            "11"] ∧
    texLogExcerpt ["!x"] 0 = none := by
  refine ⟨?_, ?_, ?_⟩
  · have := texLogExcerpt_window.1 ["!x", "l.1"] 0 1 "l.1" (by decide)
      (by decide) (by decide) (by decide)
      (by decide)
    exact this
  · have := texLogExcerpt_window.2.1
      ["!x", "1", "2", "3", "4", "5", "6", "7", "8", "9", "10", "11"] 0
      (by decide) (by decide)
    exact this
  · exact texLogExcerpt_window.2.2 ["!x"] 0 (by decide) (by decide)

/-! ## Helper lemmas on the pipeline stages -/

/-- When the working directory and the fingerprint-derived document path
both exist, `generate_tex_file` returns the path with the state entirely
unchanged: no write, no directory creation, no log message. -/
theorem generate_tex_file_cache_hit (cfg : ManimConfig) (e : String)
    (env : Option String) (ttOpt : Option TexTemplate) (st : St)
    (hdir : st.fs.pathExists cfg.tex_dir = true)
    (hfile : st.fs.pathExists (genTexPath cfg e env ttOpt) = true) :
    generate_tex_file cfg e env ttOpt st = (genTexPath cfg e env ttOpt, st) := by
  unfold generate_tex_file
  simp only [hdir, hfile, if_true]

/-- When the expected compiler output path exists, `compile_tex` returns
it with the state unchanged — no command is built, no process runs. -/
theorem compile_tex_cache_hit (exec : ExecOracle) (cfg : ManimConfig)
    (f c fmt : String) (st : St)
    (h : st.fs.pathExists (compileOutputPath f fmt) = true) :
    compile_tex exec cfg f c fmt st =
      (Except.ok (compileOutputPath f fmt), st) := by
  unfold compile_tex
  simp only [h, if_true]

/-- When the expected SVG path exists, `convert_to_svg` returns it with
the state unchanged — no converter runs. -/
theorem convert_to_svg_cache_hit (exec : ExecOracle) (dvi ext : String)
    (page : Nat) (st : St)
    (h : st.fs.pathExists (svgOutputPath dvi ext) = true) :
    convert_to_svg exec dvi ext page st =
      (Except.ok (svgOutputPath dvi ext), st) := by
  unfold convert_to_svg convertRunState
  simp [h]

/-- A successful `compile_tex` always returns the expected output
path. -/
theorem compile_tex_ok_result (exec : ExecOracle) (cfg : ManimConfig)
    (f c fmt : String) (st : St) (r : String)
    (h : (compile_tex exec cfg f c fmt st).1 = Except.ok r) :
    r = compileOutputPath f fmt := by
  unfold compile_tex at h
  dsimp only at h
  split at h
  · simp only [Except.ok.injEq] at h
    exact h.symm
  · split at h
    · simp at h
    · split at h
      · split at h
        · split at h
          · simp at h
          · split at h <;> simp at h
        · simp at h
      · simp only [Except.ok.injEq] at h
        exact h.symm

/-- A successful `convert_to_svg` returns the expected SVG path, and
that path exists in the returned state. -/
theorem convert_to_svg_ok (exec : ExecOracle) (dvi ext : String)
    (page : Nat) (st : St) (r : String) (st' : St)
    (h : convert_to_svg exec dvi ext page st = (Except.ok r, st')) :
    r = svgOutputPath dvi ext ∧
      st'.fs.pathExists (svgOutputPath dvi ext) = true := by
  unfold convert_to_svg at h
  dsimp only at h
  split at h
  · simp at h
  · rename_i hcond
    simp only [Prod.mk.injEq, Except.ok.injEq] at h
    obtain ⟨h1, h2⟩ := h
    refine ⟨h1.symm, ?_⟩
    rw [← h2]
    simpa using hcond

/-- The path returned by `generate_tex_file` is the fingerprint-derived
path, in either cache case. -/
theorem generate_tex_file_fst (cfg : ManimConfig) (e : String)
    (env : Option String) (ttOpt : Option TexTemplate) (st : St) :
    (generate_tex_file cfg e env ttOpt st).1 = genTexPath cfg e env ttOpt :=
  rfl

/-- A successful full pipeline run returns the SVG path derived from the
rendered document's fingerprint, and that path exists in the final
state. -/
theorem tex_to_svg_file_ok (exec : ExecOracle) (cfg : ManimConfig)
    (e : String) (env : Option String) (ttOpt : Option TexTemplate)
    (st₀ : St) (p : String) (st₁ : St)
    (h : tex_to_svg_file exec cfg e env ttOpt st₀ = (Except.ok p, st₁)) :
    p = svgOutputPath
        (compileOutputPath
          (genTexPath cfg e env (some (ttOpt.getD cfg.tex_template)))
          (ttOpt.getD cfg.tex_template).output_format)
        (ttOpt.getD cfg.tex_template).output_format ∧
      st₁.fs.pathExists p = true := by
  unfold tex_to_svg_file at h
  dsimp only at h
  split at h
  · simp at h
  · rename_i dvi hdvi
    rw [generate_tex_file_fst] at hdvi
    have hd : dvi =
        compileOutputPath
          (genTexPath cfg e env (some (ttOpt.getD cfg.tex_template)))
          (ttOpt.getD cfg.tex_template).output_format :=
      compile_tex_ok_result _ _ _ _ _ _ _ hdvi
    obtain ⟨h1, h2⟩ := convert_to_svg_ok _ _ _ _ _ _ _ h
    subst hd
    exact ⟨h1, h1 ▸ h2⟩

/-- C1: idempotence of the cached pipeline.  Each stage is a no-op when
its artifact already exists — the generator when the working directory
and the fingerprinted document path exist, the compiler and converter
when their expected output paths exist — returning the path with the
state (filesystem, invocations, writes, reads, log messages) entirely
unchanged.  Consequently a second full pipeline call after a successful
first call whose document, compiled and working-directory artifacts
survive in the final state returns the same SVG path with the state
unchanged: zero external invocations and zero disk writes. -/
theorem cached_pipeline_idempotent :
    (∀ (cfg : ManimConfig) (e : String) (env : Option String)
       (ttOpt : Option TexTemplate) (st : St),
       st.fs.pathExists cfg.tex_dir = true →
       st.fs.pathExists (genTexPath cfg e env ttOpt) = true →
       generate_tex_file cfg e env ttOpt st =
         (genTexPath cfg e env ttOpt, st)) ∧
    (∀ (exec : ExecOracle) (cfg : ManimConfig) (f c fmt : String) (st : St),
       st.fs.pathExists (compileOutputPath f fmt) = true →
       compile_tex exec cfg f c fmt st =
         (Except.ok (compileOutputPath f fmt), st)) ∧
    (∀ (exec : ExecOracle) (dvi ext : String) (page : Nat) (st : St),
       st.fs.pathExists (svgOutputPath dvi ext) = true →
       convert_to_svg exec dvi ext page st =
         (Except.ok (svgOutputPath dvi ext), st)) ∧
    (∀ (exec : ExecOracle) (cfg : ManimConfig) (e : String)
       (env : Option String) (ttOpt : Option TexTemplate) (st₀ : St)
       (p : String) (st₁ : St),
       tex_to_svg_file exec cfg e env ttOpt st₀ = (Except.ok p, st₁) →
       st₁.fs.pathExists cfg.tex_dir = true →
       st₁.fs.pathExists
         (genTexPath cfg e env (some (ttOpt.getD cfg.tex_template))) = true →
       st₁.fs.pathExists
         (compileOutputPath
           (genTexPath cfg e env (some (ttOpt.getD cfg.tex_template)))
           (ttOpt.getD cfg.tex_template).output_format) = true →
       tex_to_svg_file exec cfg e env ttOpt st₁ = (Except.ok p, st₁)) := by
  refine ⟨generate_tex_file_cache_hit, compile_tex_cache_hit,
    convert_to_svg_cache_hit, ?_⟩
  intro exec cfg e env ttOpt st₀ p st₁ h0 hdir htex hdvi
  obtain ⟨hp, hsvg⟩ := tex_to_svg_file_ok exec cfg e env ttOpt st₀ p st₁ h0
  unfold tex_to_svg_file
  dsimp only
  rw [generate_tex_file_cache_hit cfg e env
    (some (ttOpt.getD cfg.tex_template)) st₁ hdir htex]
  dsimp only
  rw [compile_tex_cache_hit exec cfg _ _ _ st₁ hdvi]
  dsimp only
  rw [convert_to_svg_cache_hit exec _ _ 1 st₁ (by rw [← hp]; exact hsvg)]
  rw [hp]

/-- C10: a cache hit bypasses compiler validation.  When the expected
output path already exists, `compile_tex` returns it without error for
every compiler name and output format — including unknown compilers and
formats unsupported by xelatex — and conversely every error return
implies the expected output path was absent. -/
theorem cache_hit_bypasses_compiler_validation :
    (∀ (exec : ExecOracle) (cfg : ManimConfig) (f c fmt : String) (st : St),
       st.fs.pathExists (compileOutputPath f fmt) = true →
       compile_tex exec cfg f c fmt st =
         (Except.ok (compileOutputPath f fmt), st)) ∧
    (∀ (exec : ExecOracle) (cfg : ManimConfig) (f c fmt : String) (st : St)
       (err : TexError) (st' : St),
       compile_tex exec cfg f c fmt st = (Except.error err, st') →
       st.fs.pathExists (compileOutputPath f fmt) = false) := by
  refine ⟨compile_tex_cache_hit, ?_⟩
  intro exec cfg f c fmt st err st' herr
  cases hb : st.fs.pathExists (compileOutputPath f fmt) with
  | false => rfl
  | true =>
    rw [compile_tex_cache_hit exec cfg f c fmt st hb] at herr
    simp at herr

/-- Witness for C10: with the expected output `"a.dvi"` on disk,
`compile_tex` succeeds for the unknown compiler name
`"not-a-compiler"` and for xelatex with the unsupported format; no
validation error is raised. -/
theorem cache_hit_bypasses_compiler_validation_witness :
    compile_tex noopExec wConfig "a.tex" "not-a-compiler" ".dvi"
        ⟨⟨[("a.dvi", "")], []⟩, [], [], [], [], []⟩ =
      (Except.ok (compileOutputPath "a.tex" ".dvi"),
       ⟨⟨[("a.dvi", "")], []⟩, [], [], [], [], []⟩) :=
  cache_hit_bypasses_compiler_validation.1 noopExec wConfig "a.tex"
    "not-a-compiler" ".dvi" ⟨⟨[("a.dvi", "")], []⟩, [], [], [], [], []⟩
    (by decide)

set_option maxRecDepth 1000000 in
set_option maxHeartbeats 2000000 in
/-- Witness for C1: concrete cache hits for each of the three stages,
and a concrete second pipeline call after a successful first call — the
state is returned unchanged and the same SVG path comes back. -/
theorem cached_pipeline_idempotent_witness :
    (generate_tex_file wConfig "x^2" none (some wTemplate)
        ⟨⟨[(genTexPath wConfig "x^2" none (some wTemplate), "doc:x^2")],
          ["media/Tex"]⟩, [], [], [], [], []⟩ =
      (genTexPath wConfig "x^2" none (some wTemplate),
       ⟨⟨[(genTexPath wConfig "x^2" none (some wTemplate), "doc:x^2")],
         ["media/Tex"]⟩, [], [], [], [], []⟩)) ∧
    (compile_tex noopExec wConfig "a.tex" "latex" ".dvi"
        ⟨⟨[("a.dvi", "")], []⟩, [], [], [], [], []⟩ =
      (Except.ok (compileOutputPath "a.tex" ".dvi"),
       ⟨⟨[("a.dvi", "")], []⟩, [], [], [], [], []⟩)) ∧
    (convert_to_svg noopExec "a.dvi" ".dvi" 1
        ⟨⟨[("a.svg", "")], []⟩, [], [], [], [], []⟩ =
      (Except.ok (svgOutputPath "a.dvi" ".dvi"),
       ⟨⟨[("a.svg", "")], []⟩, [], [], [], [], []⟩)) ∧
    (tex_to_svg_file wExec wConfig "x^2" none none
        (tex_to_svg_file wExec wConfig "x^2" none none wSt0).2 =
      (Except.ok
        (svgOutputPath
          (compileOutputPath (genTexPath wConfig "x^2" none (some wTemplate))
            ".dvi") ".dvi"),
       (tex_to_svg_file wExec wConfig "x^2" none none wSt0).2)) := by
  refine ⟨?_, ?_, ?_, ?_⟩
  · exact cached_pipeline_idempotent.1 wConfig "x^2" none (some wTemplate) _
      (by decide) (by decide)
  · exact cached_pipeline_idempotent.2.1 noopExec wConfig "a.tex" "latex"
      ".dvi" _ (by decide)
  · exact cached_pipeline_idempotent.2.2.1 noopExec "a.dvi" ".dvi" 1 _
      (by decide)
  · exact cached_pipeline_idempotent.2.2.2 wExec wConfig "x^2" none none
      wSt0 _ _ (by decide) (by decide) (by decide) (by decide)

/-- C5: the missing-log fatal path.  On a cache miss with a validly
constructed command, when the compiler exits non-zero and no log file
exists at the document path with `.tex` replaced by `.log`, compilation
fails with the missing-log-file `RuntimeError` (the spec's
`ToolchainMissing`), the state records only the invocation, and no log
read is performed: the returned read log equals the caller's. -/
theorem missing_log_fails_without_reading (exec : ExecOracle)
    (cfg : ManimConfig) (f c fmt cmd : String) (st : St)
    (hmiss : st.fs.pathExists (compileOutputPath f fmt) = false)
    (hcmd : tex_compilation_command c fmt (asPosix f) (asPosix cfg.tex_dir) =
      Except.ok cmd)
    (hexit : (exec cmd st.fs).1 ≠ 0)
    (hlog : FS.pathExists (exec cmd st.fs).2
      (pyReplace (asPosix f) ".tex" ".log") = false) :
    compile_tex exec cfg f c fmt st =
      (Except.error (TexError.missingLogFile c),
       { st with fs := (exec cmd st.fs).2,
                 invocations := st.invocations ++ [cmd] }) ∧
    (compile_tex exec cfg f c fmt st).2.reads = st.reads := by
  have main : compile_tex exec cfg f c fmt st =
      (Except.error (TexError.missingLogFile c),
       { st with fs := (exec cmd st.fs).2,
                 invocations := st.invocations ++ [cmd] }) := by
    unfold compile_tex
    dsimp only
    rw [if_neg (by simp [hmiss]), hcmd]
    dsimp only
    rw [if_pos hexit, if_neg (by simp [hlog])]
  exact ⟨main, by rw [main]⟩

/-- Witness for C5 at a failing oracle over an empty filesystem: the
missing-log error is returned and the read log stays empty. -/
theorem missing_log_fails_without_reading_witness :
    compile_tex failExec wConfig "a.tex" "latex" ".dvi" wSt0 =
      (Except.error (TexError.missingLogFile "latex"),
       { wSt0 with
          fs := (failExec
            "latex -interaction=batchmode -output-format=\"dvi\" -halt-on-error -output-directory=\"media/Tex\" \"a.tex\" > /dev/null"
            wSt0.fs).2,
          invocations := wSt0.invocations ++
            ["latex -interaction=batchmode -output-format=\"dvi\" -halt-on-error -output-directory=\"media/Tex\" \"a.tex\" > /dev/null"] }) ∧
    (compile_tex failExec wConfig "a.tex" "latex" ".dvi" wSt0).2.reads =
      wSt0.reads :=
  missing_log_fails_without_reading failExec wConfig "a.tex" "latex" ".dvi"
    "latex -interaction=batchmode -output-format=\"dvi\" -halt-on-error -output-directory=\"media/Tex\" \"a.tex\" > /dev/null"
    wSt0 (by decide) (by decide) (by decide) (by decide)

/-- C6: conversion success is verified purely by SVG existence.  For
every oracle — whatever exit status it reports — `convert_to_svg`
returns the expected SVG path iff that path exists in the filesystem
after the run-or-skip phase, and otherwise fails with the conversion
`ValueError` (the spec's `ConversionUnsupported`). -/
theorem conversion_verified_by_existence (exec : ExecOracle)
    (dvi ext : String) (page : Nat) (st : St) :
    convert_to_svg exec dvi ext page st =
      (if (convertRunState exec dvi ext page st).fs.pathExists
            (svgOutputPath dvi ext) = true
       then Except.ok (svgOutputPath dvi ext)
       else Except.error (TexError.svgConversionFailed ext),
       convertRunState exec dvi ext page st) := by
  unfold convert_to_svg
  dsimp only
  by_cases hc : (convertRunState exec dvi ext page st).fs.pathExists
      (svgOutputPath dvi ext) = true
  · simp [hc]
  · simp [hc]

/-- No lowercase hex character is a slash. -/
theorem hexChars_ne_slash : ∀ c ∈ hexChars, c ≠ '/' := by decide

/-- A `tex_hash` value never begins with a slash, so `os.path.join`
never treats it as absolute. -/
theorem tex_hash_head_ne_slash (s : String) :
    (tex_hash s).data.head? ≠ some '/' := by
  rcases hd : (tex_hash s).data with _ | ⟨c, rest⟩
  · simp
  · have hc : c ∈ hexChars :=
      tex_hash_mem_hexChars s (by rw [hd]; exact List.mem_cons_self c rest)
    simp only [List.head?]
    intro h
    injection h with h'
    exact hexChars_ne_slash c hc h'

/-- Joining a working directory with a hash inserts exactly one slash
when the directory is nonempty and does not end with one. -/
theorem osPathJoin_tex_hash (dir s : String) (h1 : dir ≠ "")
    (h2 : dir.data.getLast? ≠ some '/') :
    osPathJoin dir (tex_hash s) = dir ++ "/" ++ tex_hash s := by
  unfold osPathJoin
  rw [if_neg (tex_hash_head_ne_slash s), if_neg h1, if_neg h2]

/-- C7: the document generator's contract.  For every expression,
environment and template, the returned path is
`{workDir}/{tex_hash(renderedText)}.tex`, where the rendered text comes
from the template's expression-plus-environment function exactly when an
environment is provided and from its expression-only function otherwise;
the state argument is arbitrary, so the same path is returned whether
the file is freshly written or already present.  (Hypotheses: the
configured working directory is nonempty and has no trailing slash, as
`os.path.join` inserts the separator only then.) -/
theorem generate_tex_file_contract (cfg : ManimConfig)
    (expression : String) (ttOpt : Option TexTemplate) (st : St)
    (h1 : cfg.tex_dir ≠ "") (h2 : cfg.tex_dir.data.getLast? ≠ some '/') :
    (∀ env : String,
       (generate_tex_file cfg expression (some env) ttOpt st).1 =
         cfg.tex_dir ++ "/" ++
           tex_hash ((ttOpt.getD cfg.tex_template).texcodeForExpressionInEnv
             expression env) ++ ".tex") ∧
    ((generate_tex_file cfg expression none ttOpt st).1 =
       cfg.tex_dir ++ "/" ++
         tex_hash ((ttOpt.getD cfg.tex_template).texcodeForExpression
           expression) ++ ".tex") := by
  constructor
  · intro env
    show osPathJoin cfg.tex_dir
        (tex_hash ((ttOpt.getD cfg.tex_template).texcodeForExpressionInEnv
          expression env)) ++ ".tex" = _
    rw [osPathJoin_tex_hash _ _ h1 h2]
  · show osPathJoin cfg.tex_dir
        (tex_hash ((ttOpt.getD cfg.tex_template).texcodeForExpression
          expression)) ++ ".tex" = _
    rw [osPathJoin_tex_hash _ _ h1 h2]

/-- Witness for C7 at the sample configuration (working directory
`"media/Tex"`), the expression `"x^2"` and the environment
`"align*"`. -/
theorem generate_tex_file_contract_witness :
    ((generate_tex_file wConfig "x^2" (some "align*") none wSt0).1 =
       wConfig.tex_dir ++ "/" ++
         tex_hash ((Option.getD none
           wConfig.tex_template).texcodeForExpressionInEnv "x^2" "align*") ++
         ".tex") ∧
    ((generate_tex_file wConfig "x^2" none none wSt0).1 =
       wConfig.tex_dir ++ "/" ++
         tex_hash ((Option.getD none
           wConfig.tex_template).texcodeForExpression "x^2") ++ ".tex") :=
  ⟨(generate_tex_file_contract wConfig "x^2" none wSt0 (by decide)
      (by decide)).1 "align*",
   (generate_tex_file_contract wConfig "x^2" none wSt0 (by decide)
      (by decide)).2⟩

/-- Evaluating `pyReplaceCore` on the empty list gives the empty list
at any fuel. -/
theorem pyReplaceCore_nil_input (pat rep : List Char) :
    ∀ fuel, pyReplaceCore pat rep fuel [] = [] := by
  intro fuel; cases fuel <;> rfl

/-- Every list is a prefix of itself, in the boolean sense. -/
theorem isPrefixOf_self (l : List Char) : l.isPrefixOf l = true := by
  induction l with
  | nil => rfl
  | cons x xs ih => simp [List.isPrefixOf, ih]

/-- When the pattern's only occurrence in `xs ++ pat` is the final one,
Python replace rewrites exactly that trailing occurrence. -/
theorem pyReplaceCore_unique (pat rep : List Char) (hpat : pat ≠ []) :
    ∀ (xs : List Char) (fuel : Nat), xs.length + pat.length ≤ fuel →
      (∀ i, i < xs.length →
        ¬ pat.isPrefixOf ((xs ++ pat).drop i) = true) →
      pyReplaceCore pat rep fuel (xs ++ pat) = xs ++ rep := by
  intro xs
  induction xs with
  | nil =>
    intro fuel hf hocc
    have hplen : 1 ≤ pat.length := by
      cases pat with
      | nil => exact absurd rfl hpat
      | cons a as => simp
    cases fuel with
    | zero => omega
    | succ f =>
      simp only [List.nil_append]
      cases pat with
      | nil => exact absurd rfl hpat
      | cons a as =>
        show pyReplaceCore (a :: as) rep (f + 1) (a :: as) = [] ++ rep
        unfold pyReplaceCore
        rw [if_pos ⟨by rw [isPrefixOf_self], by simp⟩, List.drop_length,
          pyReplaceCore_nil_input]
        simp
  | cons x xs ih =>
    intro fuel hf hocc
    cases fuel with
    | zero =>
      simp only [List.length_cons] at hf
      omega
    | succ f =>
      show pyReplaceCore pat rep (f + 1) ((x :: xs) ++ pat) =
        (x :: xs) ++ rep
      rw [List.cons_append]
      unfold pyReplaceCore
      rw [if_neg (fun hand => (by
        have h0 := hocc 0 (by simp)
        rw [List.drop_zero, List.cons_append] at h0
        exact h0 hand.1 : False))]
      rw [ih f (by simp only [List.length_cons] at hf; omega)
        (fun i hi => by
          have := hocc (i + 1) (by simp; omega)
          rwa [List.cons_append, List.drop_succ_cons] at this)]
      rw [List.cons_append]

/-- C8 (amended): expected-output-path derivation.  The code replaces
every occurrence of the extension and then normalizes the result as a
POSIX path, so the claim's extension-only replacement holds exactly when
the extension's only occurrence is the trailing one and the replaced
path is already in normal form: under those hypotheses the compiler
stage's expected path is the document path with its final `.tex`
replaced by the output format, and the converter stage's expected path
is the input path with its trailing extension replaced by `.svg`. -/
theorem output_path_extension_replacement :
    (∀ (stem : List Char) (fmt : String),
       (∀ i, i < stem.length →
         ¬ (".tex" : String).data.isPrefixOf
             ((stem ++ (".tex" : String).data).drop i) = true) →
       asPosix ⟨stem ++ fmt.data⟩ = ⟨stem ++ fmt.data⟩ →
       compileOutputPath ⟨stem ++ (".tex" : String).data⟩ fmt =
         ⟨stem ++ fmt.data⟩) ∧
    (∀ (stem : List Char) (ext : String), ext.data ≠ [] →
       (∀ i, i < stem.length →
         ¬ ext.data.isPrefixOf ((stem ++ ext.data).drop i) = true) →
       asPosix ⟨stem ++ (".svg" : String).data⟩ =
         ⟨stem ++ (".svg" : String).data⟩ →
       svgOutputPath ⟨stem ++ ext.data⟩ ext =
         ⟨stem ++ (".svg" : String).data⟩) := by
  constructor
  · intro stem fmt hocc hfix
    unfold compileOutputPath pyReplace
    rw [if_neg (by decide)]
    show asPosix
      ⟨pyReplaceCore (".tex" : String).data fmt.data
        (stem ++ (".tex" : String).data).length
        (stem ++ (".tex" : String).data)⟩ = _
    rw [pyReplaceCore_unique _ _ (by decide) stem _ (by simp) hocc]
    exact hfix
  · intro stem ext hext hocc hfix
    unfold svgOutputPath pyReplace
    rw [if_neg (fun he => hext (by rw [he]))]
    show asPosix
      ⟨pyReplaceCore ext.data (".svg" : String).data
        (stem ++ ext.data).length (stem ++ ext.data)⟩ = _
    rw [pyReplaceCore_unique _ _ hext stem _ (by simp) hocc]
    exact hfix

/-- Counterexample for C8 as stated: the code replaces every occurrence
of the extension, not only the trailing one.  For the document path
`"a.tex/b.tex"` with output format `".dvi"` the derived path is
`"a.dvi/b.dvi"`, not the extension-only replacement `"a.tex/b.dvi"`;
likewise the converter maps `"a.dvi/b.dvi"` to `"a.svg/b.svg"`, not
`"a.dvi/b.svg"`. -/
theorem output_path_extension_replacement_counterexample :
    compileOutputPath "a.tex/b.tex" ".dvi" = "a.dvi/b.dvi" ∧
    compileOutputPath "a.tex/b.tex" ".dvi" ≠ "a.tex/b.dvi" ∧
    svgOutputPath "a.dvi/b.dvi" ".dvi" = "a.svg/b.svg" ∧
    svgOutputPath "a.dvi/b.dvi" ".dvi" ≠ "a.dvi/b.svg" := by
  refine ⟨by decide, by decide, by decide, by decide⟩

/-- Witness for C8 (amended) at the path stem `"a/b"`: the document path
`"a/b.tex"` maps to `"a/b.dvi"`, and the compiled path `"a/b.dvi"` maps
to `"a/b.svg"`. -/
theorem output_path_extension_replacement_witness :
    compileOutputPath ⟨("a/b" : String).data ++ (".tex" : String).data⟩
        ".dvi" =
      ⟨("a/b" : String).data ++ (".dvi" : String).data⟩ ∧
    svgOutputPath ⟨("a/b" : String).data ++ (".dvi" : String).data⟩
        ".dvi" =
      ⟨("a/b" : String).data ++ (".svg" : String).data⟩ :=
  ⟨output_path_extension_replacement.1 ("a/b" : String).data ".dvi"
     (by decide) (by decide),
   output_path_extension_replacement.2 ("a/b" : String).data ".dvi"
     (by decide) (by decide) (by decide)⟩

end TexWriting
